import Mathlib

/-!
Shallow embedding of `packages/vite/src/node/optimizer/esbuildDepPlugin.ts`.

The plugin registers resolve/load handlers with the esbuild host.  Each
handler is embedded as a pure Lean function.  External collaborators (the
underlying vite resolver created by `config.createResolver`, Node's `path`
module, and helpers imported from files outside the embedded source) are
either kept as explicit function parameters (oracles) or, where a claim
depends on them, modelled from the specification.
-/

/-- Models JavaScript's character-wise prefix test (`String.prototype.startsWith`)
on char lists: `leadsWith seg s` is true iff `seg` is a prefix of `s`. -/
def leadsWith : List Char → List Char → Bool
  | [], _ => true
  | _ :: _, [] => false
  | a :: as, b :: bs => a = b && leadsWith as bs

/-- Models JavaScript's `String.prototype.startsWith` on Lean strings. -/
def strStartsWith (s p : String) : Bool := leadsWith p.data s.data

/-- Models JavaScript's `String.prototype.endsWith` on Lean strings. -/
def strEndsWith (s p : String) : Bool := leadsWith p.data.reverse s.data.reverse

/-- True iff `seg` occurs contiguously somewhere inside `s` (used to model
regex matching of an unanchored literal segment). -/
def charsContainsSeg (seg : List Char) : List Char → Bool
  | [] => leadsWith seg []
  | b :: bs => leadsWith seg (b :: bs) || charsContainsSeg seg bs

/-- The `externalTypes` array from the source.  `knownAssetTypes` stands for
the `KNOWN_ASSET_TYPES` constant imported from `../constants`, a file outside
the embedded source; it is kept as a parameter. -/
def externalTypes (knownAssetTypes : List String) : List String :=
  ["css", "less", "sass", "scss", "styl", "stylus", "pcss", "postcss",
   "vue", "svelte", "marko", "astro", "jsx", "tsx"] ++ knownAssetTypes

/-- Semantics of the source's resolve filter regex
`\.(t1|t2|...)(\?.*)?$` over the list of external types: the specifier
either ends with `.ext`, or contains `.ext?` (extension followed by a
query string) for some `ext` in the list. -/
def extFilterMatches (types : List String) (id : String) : Bool :=
  types.any fun ext =>
    strEndsWith id ("." ++ ext) || charsContainsSeg ("." ++ ext ++ "?").data id.data

/-- The shapes of the result records the plugin's onResolve handlers return:
`{path, external: true}`, `{path, namespace: 'browser-external'}`,
`{path, namespace: 'dep'}`, and the plain `{path}` (concrete) record. -/
inductive OnResolveResult where
  | external (path : String)
  | browserExternal (path : String)
  | dep (path : String)
  | concrete (path : String)
deriving DecidableEq

/-- External collaborators used by `resolveResult` in the source, kept
abstract: the `browserExternalId` marker string (imported from
`../plugins/resolve`), the `isExternalUrl` predicate (from `../utils`),
and Node's `path.resolve` normalization. -/
structure ResolveEnv where
  browserExternalId : String
  isExternalUrl : String → Bool
  pathResolve : String → String

/-- The source's `resolveResult` classifier: a resolved string starting with
the browser-external marker becomes a browser-external record carrying the
original specifier; otherwise an external URL becomes an external record;
otherwise the resolved string is normalized to an absolute path. -/
def resolveResult (env : ResolveEnv) (id resolved : String) : OnResolveResult :=
  if strStartsWith resolved env.browserExternalId then
    .browserExternal id
  else if env.isExternalUrl resolved then
    .external resolved
  else
    .concrete (env.pathResolve resolved)

/-- The externalTypes onResolve handler from the source: it forwards the
specifier to the underlying resolver (an oracle `resolver id importer`,
standing for the plugin's `resolve` closure) and, on success, externalizes
the resolved path; on failure it defers to the host (returns nothing). -/
def externalTypesOnResolve (resolver : String → Option String → Option String)
    (id : String) (importer : Option String) : Option OnResolveResult :=
  match resolver id importer with
  | some resolved => some (.external resolved)
  | none => none

/-- Modelled from the spec: `flattenId` (implemented in `../utils`, outside
the embedded source) — a package specifier with path-separator characters
replaced by a safe token so it can serve as a single opaque key. -/
def flattenId (id : String) : String :=
  String.mk (id.data.map fun c => if c = '/' then '_' else c)

/-- Modelled from the spec: `moduleListContains` (implemented in `../utils`,
outside the embedded source) — membership of a specifier in the
caller-supplied exclusion list. -/
def moduleListContains (l : List String) (id : String) : Bool :=
  l.contains id

/-- The source's `resolveEntry`: flatten the specifier and look it up in the
`qualified` entry registry; a hit yields a dep-namespaced record whose path
is the flattened id. -/
def resolveEntry (qualified : String → Option String) (id : String) :
    Option OnResolveResult :=
  let flatId := flattenId id
  match qualified flatId with
  | some _ => some (.dep flatId)
  | none => none

/-- The bare-specifier onResolve handler from the source (filter `^[\w@][^:]`).
`qualified` is the entry registry, `aliasResolver` stands for the call
`_resolve(id, undefined, true)`, and `resolver` for the `resolve` closure
over the underlying vite resolver.  An absent importer (esbuild's
empty importer for entry points) is `none`. -/
def bareOnResolve (env : ResolveEnv) (exclude : List String)
    (qualified : String → Option String)
    (aliasResolver : String → Option String)
    (resolver : String → Option String → Option String)
    (id : String) (importer : Option String) : Option OnResolveResult :=
  if moduleListContains exclude id then
    some (.external id)
  else
    let entry : Option OnResolveResult :=
      if importer.isNone then
        match resolveEntry qualified id with
        | some e => some e
        | none =>
          match aliasResolver id with
          | some aliased => resolveEntry qualified aliased
          | none => none
      else
        none
    match entry with
    | some e => some e
    | none =>
      match resolver id importer with
      | some resolved => some (resolveResult env id resolved)
      | none => none

/-- Per-entry export metadata (`ExportsData` from `../optimizer`): the list
of import specifiers seen in the entry, the list of exported names, and the
re-export flag (`hasReExports`, absent meaning false). -/
structure ExportsData where
  imports : List String
  exports : List String
  hasReExports : Bool

/-- The single statement synthesized for a CommonJS-style entry:
`export default require("<rel>");`. -/
def cjsDefaultExportStmt (rel : String) : String :=
  "export default require(\"" ++ rel ++ "\");"

/-- The default re-export statement synthesized for an ES entry with a
default export: `import d from "<rel>";export default d;`. -/
def defaultExportStmt (rel : String) : String :=
  "import d from \"" ++ rel ++ "\";export default d;"

/-- The wildcard re-export statement synthesized for named exports:
a newline followed by `export * from "<rel>"`. -/
def starExportStmt (rel : String) : String :=
  "\nexport * from \"" ++ rel ++ "\""

/-- The source's `exports.includes('default')` test. -/
def hasDefaultExport (data : ExportsData) : Bool :=
  data.exports.contains "default"

/-- The source's wildcard condition
`data.hasReExports || exports.length > 1 || exports[0] !== 'default'`;
`exports[0]` on an empty list is JavaScript's `undefined`, modelled by
`head?` returning `none`, which indeed differs from `'default'`. -/
def needsStarExport (data : ExportsData) : Bool :=
  data.hasReExports || decide (data.exports.length > 1)
    || (data.exports.head? != some "default")

/-- The contents string built by the dep-namespace onLoad handler from the
entry's export metadata and the synthesized relative path. -/
def depLoadContents (data : ExportsData) (relativePath : String) : String :=
  if data.imports.isEmpty && data.exports.isEmpty then
    cjsDefaultExportStmt relativePath
  else
    (if hasDefaultExport data then defaultExportStmt relativePath else "") ++
    (if needsStarExport data then starExportStmt relativePath else "")

/-- The relative-path fixup in the dep onLoad handler: prepend `./` unless
the path already starts with `./` or `../` or is exactly `.`. -/
def fixRelativePath (s : String) : String :=
  if !(strStartsWith s "./") && !(strStartsWith s "../") && !(s == ".") then
    "./" ++ s
  else
    s

/-- An onLoad result record `{loader, contents, resolveDir}`. -/
structure OnLoadResult where
  loader : String
  contents : String
  resolveDir : String
deriving DecidableEq

/-- The dep-namespace onLoad handler.  `relPath root entry` stands for
`normalizePath(path.relative(root, entry))` (Node's path module and
`normalizePath` from `../utils`, outside the embedded source) and
`extnameNoDot` for `path.extname(entryFile).slice(1)`; both are oracles.
A lookup miss in `qualified` or in the export metadata map makes the
JavaScript handler throw (undefined dereference), embedded as `none`. -/
def depOnLoad (qualified : String → Option String)
    (exportsDataMap : String → Option ExportsData)
    (root : String) (relPath : String → String → String)
    (extnameNoDot : String → String) (id : String) : Option OnLoadResult :=
  match qualified id with
  | none => none
  | some entryFile =>
    let relativePath := fixRelativePath (relPath root entryFile)
    match exportsDataMap id with
    | none => none
    | some data =>
      let ext0 := extnameNoDot entryFile
      let ext := if ext0 == "mjs" then "js" else ext0
      some ⟨ext, depLoadContents data relativePath, root⟩

/-- The browser-external onLoad handler: always returns empty contents,
ignoring the event's path. -/
def browserExternalOnLoad (_path : String) : String := ""

/-- A concrete instantiation of the abstract resolve environment, used to
exercise theorems on concrete inputs. -/
def sampleEnv : ResolveEnv :=
  ⟨"BE:", fun s => strStartsWith s "http", fun s => "/abs/" ++ s⟩

/-! ### Helper lemmas -/

theorem leadsWith_append (p t : List Char) : leadsWith p (p ++ t) = true := by
  induction p with
  | nil => rfl
  | cons a as ih => simp [leadsWith, ih]

theorem strStartsWith_append (p s : String) : strStartsWith (p ++ s) p = true := by
  unfold strStartsWith
  rw [String.data_append]
  exact leadsWith_append p.data s.data

theorem defaultExportStmt_data (rel : String) :
    (defaultExportStmt rel).data =
      "import d from \"".data ++ rel.data ++ "\";export default d;".data := by
  simp [defaultExportStmt, String.data_append]

theorem starExportStmt_data (rel : String) :
    (starExportStmt rel).data =
      "\nexport * from \"".data ++ rel.data ++ "\"".data := by
  simp [starExportStmt, String.data_append]

theorem defaultExportStmt_length (rel : String) :
    (defaultExportStmt rel).data.length = rel.data.length + 34 := by
  rw [defaultExportStmt_data]
  have h1 : "import d from \"".data.length = 15 := by decide
  have h2 : "\";export default d;".data.length = 19 := by decide
  simp [List.length_append, h1, h2]

theorem starExportStmt_length (rel : String) :
    (starExportStmt rel).data.length = rel.data.length + 17 := by
  rw [starExportStmt_data]
  have h1 : "\nexport * from \"".data.length = 16 := by decide
  have h2 : "\"".data.length = 1 := by decide
  simp [List.length_append, h1, h2]

theorem newline_mem_starExportStmt (rel : String) :
    '\n' ∈ (starExportStmt rel).data := by
  rw [starExportStmt_data]
  have h : '\n' ∈ "\nexport * from \"".data := by decide
  simp [List.mem_append]

theorem newline_not_mem_defaultExportStmt (rel : String) (hrel : '\n' ∉ rel.data) :
    '\n' ∉ (defaultExportStmt rel).data := by
  rw [defaultExportStmt_data]
  simp [List.mem_append, not_or]
  exact hrel

theorem seg_left (a b : String) : a.data <:+: (a ++ b).data :=
  ⟨[], b.data, by simp [String.data_append]⟩

theorem seg_right (a b : String) : b.data <:+: (a ++ b).data :=
  ⟨a.data, [], by simp [String.data_append]⟩

theorem seg_self (a : String) : a.data <:+: a.data :=
  ⟨[], [], by simp⟩

theorem star_not_in_default (rel : String) (hrel : '\n' ∉ rel.data) :
    ¬ (starExportStmt rel).data <:+: (defaultExportStmt rel).data := fun h =>
  newline_not_mem_defaultExportStmt rel hrel (h.subset (newline_mem_starExportStmt rel))

theorem default_not_in_star (rel : String) :
    ¬ (defaultExportStmt rel).data <:+: (starExportStmt rel).data := by
  intro h
  have hle := h.length_le
  rw [defaultExportStmt_length, starExportStmt_length] at hle
  omega

theorem default_not_in_empty (rel : String) :
    ¬ (defaultExportStmt rel).data <:+: ("" : String).data := by
  intro h
  have hle := h.length_le
  rw [defaultExportStmt_length] at hle
  have h0 : ("" : String).data.length = 0 := rfl
  omega

theorem star_not_in_empty (rel : String) :
    ¬ (starExportStmt rel).data <:+: ("" : String).data := by
  intro h
  have hle := h.length_le
  rw [starExportStmt_length] at hle
  have h0 : ("" : String).data.length = 0 := rfl
  omega

theorem hasDefaultExport_iff (data : ExportsData) :
    hasDefaultExport data = true ↔ "default" ∈ data.exports := by
  simp [hasDefaultExport]

theorem needsStarExport_iff (data : ExportsData) :
    needsStarExport data = true ↔
      (data.hasReExports = true ∨ data.exports.length > 1 ∨
        data.exports.head? ≠ some "default") := by
  simp [needsStarExport, Bool.or_eq_true, decide_eq_true_eq, bne_iff_ne]
  tauto

/-! ### Claim theorems -/

/-- Claim C1: every resolve event matching the externalization filter (its
extension, ignoring a trailing query string, is among the external types) is
answered by the externalTypes handler with an external result or deferred;
the handler never returns a concrete (non-external) path result, whatever the
underlying resolver finds. -/
theorem c1_external_types_never_concrete (assetTypes : List String)
    (resolver : String → Option String → Option String)
    (id : String) (importer : Option String)
    (hmatch : extFilterMatches (externalTypes assetTypes) id = true) :
    (∀ p, externalTypesOnResolve resolver id importer ≠
        some (OnResolveResult.concrete p)) ∧
    (∀ r, resolver id importer = some r →
      externalTypesOnResolve resolver id importer =
        some (OnResolveResult.external r)) := by
  constructor
  · intro p
    cases h : resolver id importer <;> simp [externalTypesOnResolve, h]
  · intro r h
    simp [externalTypesOnResolve, h]

/-- Witness for C1: a `.css` specifier matches the filter, and even though
the resolver locates a file on disk, the handler externalizes it. -/
theorem c1_witness :
    extFilterMatches (externalTypes []) "style.css" = true ∧
    externalTypesOnResolve (fun _ _ => some "/proj/style.css") "style.css" none =
      some (OnResolveResult.external "/proj/style.css") :=
  ⟨by decide,
   (c1_external_types_never_concrete [] (fun _ _ => some "/proj/style.css")
      "style.css" none (by decide)).2 "/proj/style.css" rfl⟩

/-- Claim C2: for a dep-namespace load whose metadata has at least one import
or at least one exported name, the synthesized contents contain the default
re-export statement iff the exported names include `default`, and contain the
wildcard re-export statement iff the re-export flag is set, or there is more
than one exported name, or the first exported name is not `default`. -/
theorem c2_depLoadContents_stmt_iff (data : ExportsData) (rel : String)
    (hmod : ¬(data.imports = [] ∧ data.exports = []))
    (hrel : '\n' ∉ rel.data) :
    ((defaultExportStmt rel).data <:+: (depLoadContents data rel).data ↔
      "default" ∈ data.exports) ∧
    ((starExportStmt rel).data <:+: (depLoadContents data rel).data ↔
      (data.hasReExports = true ∨ data.exports.length > 1 ∨
        data.exports.head? ≠ some "default")) := by
  have hbranch : (data.imports.isEmpty && data.exports.isEmpty) = false := by
    cases h1 : data.imports.isEmpty <;> cases h2 : data.exports.isEmpty <;>
      simp_all [List.isEmpty_iff]
  cases hd : hasDefaultExport data <;> cases hw : needsStarExport data
  · -- no default statement, no wildcard statement
    have hc : depLoadContents data rel = "" := by
      simp [depLoadContents, hbranch, hd, hw]
    rw [hc]
    refine ⟨iff_of_false (default_not_in_empty rel) ?_,
      iff_of_false (star_not_in_empty rel) ?_⟩
    · intro hm
      have h' := (hasDefaultExport_iff data).mpr hm
      rw [hd] at h'
      exact Bool.noConfusion h'
    · intro hm
      have h' := (needsStarExport_iff data).mpr hm
      rw [hw] at h'
      exact Bool.noConfusion h'
  · -- only the wildcard statement
    have hc : depLoadContents data rel = "" ++ starExportStmt rel := by
      simp [depLoadContents, hbranch, hd, hw]
    rw [hc]
    refine ⟨iff_of_false ?_ ?_, iff_of_true (seg_right "" (starExportStmt rel))
      ((needsStarExport_iff data).mp hw)⟩
    · intro h
      have hle := h.length_le
      rw [defaultExportStmt_length, String.data_append, List.length_append,
        starExportStmt_length] at hle
      have h0 : ("" : String).data.length = 0 := rfl
      omega
    · intro hm
      have h' := (hasDefaultExport_iff data).mpr hm
      rw [hd] at h'
      exact Bool.noConfusion h'
  · -- only the default statement
    have hc : depLoadContents data rel = defaultExportStmt rel ++ "" := by
      simp [depLoadContents, hbranch, hd, hw]
    rw [hc]
    refine ⟨iff_of_true (seg_left (defaultExportStmt rel) "")
      ((hasDefaultExport_iff data).mp hd), iff_of_false ?_ ?_⟩
    · intro h
      have hmem := h.subset (newline_mem_starExportStmt rel)
      rw [String.data_append] at hmem
      rcases List.mem_append.mp hmem with hmem' | hmem'
      · exact newline_not_mem_defaultExportStmt rel hrel hmem'
      · exact absurd hmem' (by decide)
    · intro hm
      have h' := (needsStarExport_iff data).mpr hm
      rw [hw] at h'
      exact Bool.noConfusion h'
  · -- both statements
    have hc : depLoadContents data rel = defaultExportStmt rel ++ starExportStmt rel := by
      simp [depLoadContents, hbranch, hd, hw]
    rw [hc]
    exact ⟨iff_of_true (seg_left (defaultExportStmt rel) (starExportStmt rel))
        ((hasDefaultExport_iff data).mp hd),
      iff_of_true (seg_right (defaultExportStmt rel) (starExportStmt rel))
        ((needsStarExport_iff data).mp hw)⟩

/-- Witness for C2: with exported names `["default", "foo"]` and re-export
flag false, both the default re-export statement and the wildcard re-export
statement occur in the synthesized contents. -/
theorem c2_witness :
    '\n' ∉ "./r.js".data ∧
    (defaultExportStmt "./r.js").data <:+:
      (depLoadContents ⟨["react"], ["default", "foo"], false⟩ "./r.js").data ∧
    (starExportStmt "./r.js").data <:+:
      (depLoadContents ⟨["react"], ["default", "foo"], false⟩ "./r.js").data :=
  ⟨by decide,
   (c2_depLoadContents_stmt_iff ⟨["react"], ["default", "foo"], false⟩ "./r.js"
      (by decide) (by decide)).1.mpr (by decide),
   (c2_depLoadContents_stmt_iff ⟨["react"], ["default", "foo"], false⟩ "./r.js"
      (by decide) (by decide)).2.mpr (by decide)⟩

/-- Claim C3: an entry id registered in the entry registry and not excluded
resolves, at root level (no importer), to a dep-namespaced result whose path
is the flattened id itself, not the registered disk path. -/
theorem c3_entry_resolves_to_dep_flat_id (env : ResolveEnv)
    (exclude : List String) (qualified : String → Option String)
    (aliasResolver : String → Option String)
    (resolver : String → Option String → Option String)
    (id entryFile : String)
    (hq : qualified (flattenId id) = some entryFile)
    (hex : moduleListContains exclude id = false) :
    bareOnResolve env exclude qualified aliasResolver resolver id none =
      some (OnResolveResult.dep (flattenId id)) := by
  simp [bareOnResolve, resolveEntry, hq, hex]

/-- Witness for C3: `lodash/fp` flattens to `lodash_fp`, which is registered
with disk path `/n/lodash/fp.js`; the root-level resolve returns the
dep-namespaced flattened id, not the disk path. -/
theorem c3_witness :
    (fun s => if s == "lodash_fp" then some "/n/lodash/fp.js" else none)
        (flattenId "lodash/fp") = some "/n/lodash/fp.js" ∧
    moduleListContains [] "lodash/fp" = false ∧
    bareOnResolve sampleEnv []
        (fun s => if s == "lodash_fp" then some "/n/lodash/fp.js" else none)
        (fun _ => none) (fun _ _ => none) "lodash/fp" none =
      some (OnResolveResult.dep (flattenId "lodash/fp")) :=
  ⟨by decide, by decide,
   c3_entry_resolves_to_dep_flat_id sampleEnv []
     (fun s => if s == "lodash_fp" then some "/n/lodash/fp.js" else none)
     (fun _ => none) (fun _ _ => none) "lodash/fp" "/n/lodash/fp.js"
     (by decide) (by decide)⟩

/-- Claim C4: the classification of a successful underlying resolution is
exhaustive and mutually exclusive in order: a resolved string starting with
the browser-external marker yields the browser-external record carrying the
original specifier; otherwise an external URL yields the external record
carrying the resolved URL; otherwise the concrete record carrying the
normalized absolute path. -/
theorem c4_resolveResult_classification (env : ResolveEnv) (id resolved : String) :
    (strStartsWith resolved env.browserExternalId = true →
      resolveResult env id resolved = OnResolveResult.browserExternal id) ∧
    (strStartsWith resolved env.browserExternalId = false →
      env.isExternalUrl resolved = true →
      resolveResult env id resolved = OnResolveResult.external resolved) ∧
    (strStartsWith resolved env.browserExternalId = false →
      env.isExternalUrl resolved = false →
      resolveResult env id resolved =
        OnResolveResult.concrete (env.pathResolve resolved)) := by
  refine ⟨fun h => ?_, fun h1 h2 => ?_, fun h1 h2 => ?_⟩ <;>
    simp [resolveResult, *]

/-- Witness for C4: the three branches at concrete inputs; the
browser-external case carries the original specifier `pkg`, not the resolved
string. -/
theorem c4_witness :
    resolveResult sampleEnv "pkg" "BE:pkg" = OnResolveResult.browserExternal "pkg" ∧
    resolveResult sampleEnv "pkg" "http://cdn/x.js" =
      OnResolveResult.external "http://cdn/x.js" ∧
    resolveResult sampleEnv "pkg" "lib/i.js" =
      OnResolveResult.concrete ("/abs/" ++ "lib/i.js") :=
  ⟨(c4_resolveResult_classification sampleEnv "pkg" "BE:pkg").1 (by decide),
   (c4_resolveResult_classification sampleEnv "pkg" "http://cdn/x.js").2.1
     (by decide) (by decide),
   (c4_resolveResult_classification sampleEnv "pkg" "lib/i.js").2.2
     (by decide) (by decide)⟩

/-- Claim C5: a bare specifier in the exclusion list is answered with an
external result carrying the specifier itself, for every resolver behavior
(the underlying resolver is never consulted). -/
theorem c5_excluded_always_external (env : ResolveEnv) (exclude : List String)
    (qualified : String → Option String)
    (aliasResolver : String → Option String)
    (resolver : String → Option String → Option String)
    (id : String) (importer : Option String)
    (hex : moduleListContains exclude id = true) :
    bareOnResolve env exclude qualified aliasResolver resolver id importer =
      some (OnResolveResult.external id) := by
  simp [bareOnResolve, hex]

/-- Witness for C5: `vue` is excluded; even with a registry entry and a
resolver that locates a file on disk, the result is external. -/
theorem c5_witness :
    moduleListContains ["vue"] "vue" = true ∧
    bareOnResolve sampleEnv ["vue"] (fun _ => some "/n/vue/index.js")
        (fun _ => none) (fun _ _ => some "/n/vue/index.js") "vue" none =
      some (OnResolveResult.external "vue") :=
  ⟨by decide,
   c5_excluded_always_external sampleEnv ["vue"] (fun _ => some "/n/vue/index.js")
     (fun _ => none) (fun _ _ => some "/n/vue/index.js") "vue" none (by decide)⟩

/-- Claim C6: the import path embedded in synthesized dep sources (the
fixed-up relative path) always starts with `./` or `../` or is exactly `.`;
and when the relative-path computation yields `.` (entry path equal to the
root directory), the fixup leaves it as exactly `.`, never `./`. -/
theorem c6_relativePath_shape (s : String) :
    (strStartsWith (fixRelativePath s) "./" = true ∨
      strStartsWith (fixRelativePath s) "../" = true ∨
      fixRelativePath s = ".") ∧
    (s = "." → fixRelativePath s = ".") := by
  constructor
  · cases h1 : strStartsWith s "./" <;> cases h2 : strStartsWith s "../" <;>
      cases h3 : s == "."
    · refine Or.inl ?_
      have hc : fixRelativePath s = "./" ++ s := by
        simp [fixRelativePath, h1, h2, h3]
      rw [hc]
      exact strStartsWith_append "./" s
    · refine Or.inr (Or.inr ?_)
      have hc : fixRelativePath s = s := by simp [fixRelativePath, h3]
      rw [hc]
      exact eq_of_beq h3
    · refine Or.inr (Or.inl ?_)
      have hc : fixRelativePath s = s := by simp [fixRelativePath, h2]
      rw [hc, h2]
    · refine Or.inr (Or.inl ?_)
      have hc : fixRelativePath s = s := by simp [fixRelativePath, h2]
      rw [hc, h2]
    · refine Or.inl ?_
      have hc : fixRelativePath s = s := by simp [fixRelativePath, h1]
      rw [hc, h1]
    · refine Or.inl ?_
      have hc : fixRelativePath s = s := by simp [fixRelativePath, h1]
      rw [hc, h1]
    · refine Or.inl ?_
      have hc : fixRelativePath s = s := by simp [fixRelativePath, h1]
      rw [hc, h1]
    · refine Or.inl ?_
      have hc : fixRelativePath s = s := by simp [fixRelativePath, h1]
      rw [hc, h1]
  · intro h
    subst h
    rfl

/-- Witness for C6: the relative path `.` is left untouched by the fixup. -/
theorem c6_witness : ("." : String) = "." ∧ fixRelativePath "." = "." :=
  ⟨rfl, (c6_relativePath_shape ".").2 rfl⟩

/-- Claim C7: metadata with zero imports and zero exports synthesizes exactly
the single statement that imports the whole module and re-exports it as the
default export (one statement: exactly one terminating semicolon, given the
relative path contains none). -/
theorem c7_cjs_single_stmt (data : ExportsData) (rel : String)
    (himp : data.imports = []) (hexp : data.exports = [])
    (hsemi : ';' ∉ rel.data) :
    depLoadContents data rel = cjsDefaultExportStmt rel ∧
    (depLoadContents data rel).data.count ';' = 1 := by
  have hc : depLoadContents data rel = cjsDefaultExportStmt rel := by
    simp [depLoadContents, himp, hexp]
  refine ⟨hc, ?_⟩
  rw [hc]
  have hdata : (cjsDefaultExportStmt rel).data =
      "export default require(\"".data ++ rel.data ++ "\");".data := by
    simp [cjsDefaultExportStmt, String.data_append]
  rw [hdata]
  have h1 : "export default require(\"".data.count ';' = 0 := by decide
  have h2 : "\");".data.count ';' = 1 := by decide
  have h3 : rel.data.count ';' = 0 := List.count_eq_zero.mpr hsemi
  simp [List.count_append, h1, h2, h3]

/-- Witness for C7: metadata with no imports and no exports yields exactly
the CommonJS default-export wrapper. -/
theorem c7_witness :
    ';' ∉ "./a.js".data ∧
    depLoadContents ⟨[], [], false⟩ "./a.js" = cjsDefaultExportStmt "./a.js" ∧
    (depLoadContents ⟨[], [], false⟩ "./a.js").data.count ';' = 1 :=
  ⟨by decide,
   (c7_cjs_single_stmt ⟨[], [], false⟩ "./a.js" rfl rfl (by decide)).1,
   (c7_cjs_single_stmt ⟨[], [], false⟩ "./a.js" rfl rfl (by decide)).2⟩

/-- Claim C8: a dep-namespace load whose id has no entry in the export
metadata map does not complete: the handler fails (the JavaScript code
dereferences `undefined`) instead of returning guessed source text. -/
theorem c8_missing_exportsData_fails (qualified : String → Option String)
    (exportsDataMap : String → Option ExportsData)
    (root : String) (relPath : String → String → String)
    (extnameNoDot : String → String) (id : String)
    (hmiss : exportsDataMap id = none) :
    depOnLoad qualified exportsDataMap root relPath extnameNoDot id = none := by
  cases h : qualified id <;> simp [depOnLoad, h, hmiss]

/-- Witness for C8: a registered entry with no export metadata makes the dep
load fail. -/
theorem c8_witness :
    (fun (_ : String) => (none : Option ExportsData)) "react" = none ∧
    depOnLoad (fun _ => some "/n/react/index.js") (fun _ => none) "/proj"
        (fun _ _ => "n/react/index.js") (fun _ => "js") "react" = none :=
  ⟨rfl,
   c8_missing_exportsData_fails (fun _ => some "/n/react/index.js")
     (fun _ => none) "/proj" (fun _ _ => "n/react/index.js")
     (fun _ => "js") "react" rfl⟩

/-- Claim C9: the browser-external onLoad handler returns empty contents for
every input path. -/
theorem c9_browser_external_load_empty (p : String) :
    browserExternalOnLoad p = "" := rfl

/-- Claim C10: metadata with at least one import and an empty exported-names
list synthesizes contents containing the wildcard re-export statement and not
the default re-export statement (the empty list makes the first-export test
succeed vacuously). -/
theorem c10_empty_exports_star_only (data : ExportsData) (rel : String)
    (himp : data.imports ≠ []) (hexp : data.exports = []) :
    ((starExportStmt rel).data <:+: (depLoadContents data rel).data) ∧
    ¬((defaultExportStmt rel).data <:+: (depLoadContents data rel).data) := by
  have hbranch : (data.imports.isEmpty && data.exports.isEmpty) = false := by
    cases h1 : data.imports.isEmpty <;> simp_all [List.isEmpty_iff]
  have hd : hasDefaultExport data = false := by
    simp [hasDefaultExport, hexp]
  have hw : needsStarExport data = true := by
    simp [needsStarExport, hexp]
  have hc : depLoadContents data rel = "" ++ starExportStmt rel := by
    simp [depLoadContents, hbranch, hd, hw]
  rw [hc]
  refine ⟨seg_right "" (starExportStmt rel), ?_⟩
  intro h
  have hle := h.length_le
  rw [defaultExportStmt_length, String.data_append, List.length_append,
    starExportStmt_length] at hle
  have h0 : ("" : String).data.length = 0 := rfl
  omega

/-- Witness for C10: one import, no exports — only the wildcard statement is
synthesized. -/
theorem c10_witness :
    (["x"] : List String) ≠ [] ∧
    ((starExportStmt "./m.js").data <:+:
      (depLoadContents ⟨["x"], [], false⟩ "./m.js").data) ∧
    ¬((defaultExportStmt "./m.js").data <:+:
      (depLoadContents ⟨["x"], [], false⟩ "./m.js").data) :=
  ⟨by decide,
   (c10_empty_exports_star_only ⟨["x"], [], false⟩ "./m.js" (by decide) rfl).1,
   (c10_empty_exports_star_only ⟨["x"], [], false⟩ "./m.js" (by decide) rfl).2⟩
